import Mathlib

/-!
Shallow embedding of the go6502 CPU core (package go6502, files go6502.go,
flags/flags.go and the byte utilities Make16/Hi/Lo).

Machine integers are modelled as Nat with explicit reduction: uint8 values
are reduced mod 256 and uint16 values mod 65536 exactly where Go's fixed
width arithmetic wraps or where a value crosses a typed boundary (a bus
read returns uint8, an address parameter is uint16).  The MemoryBus
interface is modelled as a pure memory function together with a trace of
the Read and Write calls the CPU makes; the bus Clock callback is a
parameter of Step.
-/

namespace Go6502

/-- Interrupt constant IRQ from flags/flags.go (1 << 0). -/
def IRQ : Nat := 1

/-- Interrupt constant NMI from flags/flags.go (1 << 1). -/
def NMI : Nat := 2

namespace flags

/-- Carry flag bit (1 << 0). -/
def C : Nat := 1

/-- Zero flag bit (1 << 1). -/
def Z : Nat := 2

/-- IRQ disable flag bit (1 << 2). -/
def I : Nat := 4

/-- Decimal flag bit (1 << 3). -/
def D : Nat := 8

/-- Break flag bit (1 << 4). -/
def B : Nat := 16

/-- Overflow flag bit (1 << 6). -/
def V : Nat := 64

/-- Negative flag bit (1 << 7). -/
def N : Nat := 128

end flags

/-- Interrupt.Test from flags.go: (i & flags) == flags. -/
def intTest (i f : Nat) : Bool := (i &&& f) == f

/-- Interrupt.Set from flags.go: i |= flags. -/
def intSet (i f : Nat) : Nat := i ||| f

/-- Interrupt.Clear from flags.go: i &^= flags (uint8 and-not). -/
def intClear (i f : Nat) : Nat := i &&& (f ^^^ 255)

/-- ProgramFlags.Test from flags.go: (pf & flags) == flags. -/
def pfTest (pf f : Nat) : Bool := (pf &&& f) == f

/-- ProgramFlags.Set from flags.go: pf |= flags. -/
def pfSet (pf f : Nat) : Nat := pf ||| f

/-- ProgramFlags.Clear from flags.go: pf &^= flags (uint8 and-not). -/
def pfClear (pf f : Nat) : Nat := pf &&& (f ^^^ 255)

/-- ProgramFlags.SetIf from flags.go: set or clear based on the condition. -/
def pfSetIf (pf f : Nat) (cond : Bool) : Nat :=
  if cond then pfSet pf f else pfClear pf f

/-- Make16 from the byte utilities: (uint16(hi) << 8) | uint16(lo).
Since the two operands occupy disjoint bit ranges the or is addition. -/
def Make16 (hi lo : Nat) : Nat := (hi % 256) * 256 + lo % 256

/-- Hi from the byte utilities: uint8(in >> 8) for a uint16 input. -/
def Hi (x : Nat) : Nat := x % 65536 / 256

/-- Lo from the byte utilities: uint8(in & 0xFF). -/
def Lo (x : Nat) : Nat := x % 256

/-- One call made on the memory bus: a Read or a Write. -/
inductive BusEvent
  | read (addr : Nat)
  | write (addr : Nat) (data : Nat)
deriving DecidableEq, Repr

/-- True exactly on Write bus events. -/
def BusEvent.isWrite : BusEvent → Bool
  | .read _ => false
  | .write _ _ => true

/-- The CPU state of go6502.go.  The MemoryBus is modelled by the pure
memory `mem` (Read yields `mem addr % 256`, Write updates it pointwise)
plus the event `trace` (most recent call first). -/
structure CPU where
  acc : Nat
  x : Nat
  y : Nat
  sp : Nat
  pc : Nat
  pf : Nat
  mem : Nat → Nat
  halt : Bool
  intMask : Nat
  cycles : Nat
  trace : List BusEvent

/-- memRead: count a cycle and read from the bus. -/
def memRead (cpu : CPU) (addr : Nat) : Nat × CPU :=
  let a := addr % 65536
  (cpu.mem a % 256,
   { cpu with cycles := cpu.cycles + 1, trace := BusEvent.read a :: cpu.trace })

/-- memWrite: count a cycle and write to the bus. -/
def memWrite (cpu : CPU) (addr data : Nat) : CPU :=
  let a := addr % 65536
  let d := data % 256
  { cpu with cycles := cpu.cycles + 1,
             mem := fun n => if n = a then d else cpu.mem n,
             trace := BusEvent.write a d :: cpu.trace }

/-- fetch: read the next byte at the program counter and advance it. -/
def fetch (cpu : CPU) : Nat × CPU :=
  let (data, cpu) := memRead cpu cpu.pc
  (data, { cpu with pc := (cpu.pc + 1) % 65536 })

/-- stackPush: write to page one at SP, then decrement SP (8-bit wrap). -/
def stackPush (cpu : CPU) (data : Nat) : CPU :=
  let cpu := memWrite cpu (Make16 1 cpu.sp) data
  { cpu with sp := (cpu.sp + 255) % 256 }

/-- stackPop: increment SP (8-bit wrap), then read page one at SP. -/
def stackPop (cpu : CPU) : Nat × CPU :=
  let cpu := { cpu with sp := (cpu.sp + 1) % 256 }
  memRead cpu (Make16 1 cpu.sp)

/-- The addressing modes passed as function values in go6502.go.  The Go
code passes either nil or one of eight methods; nil is `Option.none`. -/
inductive AddrMode
  | zeroPage | zeroPageX | zeroPageY
  | absolute | absoluteX | absoluteY
  | indexedIndirect | indirectIndexed
deriving DecidableEq, Repr

/-- zeroPage mode: uint16(fetch()). -/
def zeroPage (cpu : CPU) : Nat × CPU :=
  let (d, cpu) := fetch cpu
  (d, cpu)

/-- zeroPageX mode: uint16(fetch() + x), the add wrapping at 8 bits. -/
def zeroPageX (cpu : CPU) : Nat × CPU :=
  let (d, cpu) := fetch cpu
  ((d + cpu.x % 256) % 256, cpu)

/-- zeroPageY mode: uint16(fetch() + y), the add wrapping at 8 bits. -/
def zeroPageY (cpu : CPU) : Nat × CPU :=
  let (d, cpu) := fetch cpu
  ((d + cpu.y % 256) % 256, cpu)

/-- absolute mode: fetch low then high byte. -/
def absolute (cpu : CPU) : Nat × CPU :=
  let (addrLo, cpu) := fetch cpu
  let (addrHi, cpu) := fetch cpu
  (Make16 addrHi addrLo, cpu)

/-- absoluteX mode: absolute plus uint16(x), wrapping at 16 bits. -/
def absoluteX (cpu : CPU) : Nat × CPU :=
  let (addrLo, cpu) := fetch cpu
  let (addrHi, cpu) := fetch cpu
  ((Make16 addrHi addrLo + cpu.x % 256) % 65536, cpu)

/-- absoluteY mode: absolute plus uint16(y), wrapping at 16 bits. -/
def absoluteY (cpu : CPU) : Nat × CPU :=
  let (addrLo, cpu) := fetch cpu
  let (addrHi, cpu) := fetch cpu
  ((Make16 addrHi addrLo + cpu.y % 256) % 65536, cpu)

/-- indexedIndirect mode ($xx,X): pointer at uint16(fetch()+x), read low
then high byte of the target with a 16-bit increment of the pointer. -/
def indexedIndirect (cpu : CPU) : Nat × CPU :=
  let (d, cpu) := fetch cpu
  let target := (d + cpu.x % 256) % 256
  let (addrLo, cpu) := memRead cpu target
  let (addrHi, cpu) := memRead cpu ((target + 1) % 65536)
  (Make16 addrHi addrLo, cpu)

/-- indirectIndexed mode ($xx),Y: pointer at uint16(fetch()), read low
then high byte with a 16-bit increment, then add uint16(y). -/
def indirectIndexed (cpu : CPU) : Nat × CPU :=
  let (d, cpu) := fetch cpu
  let target := d
  let (addrLo, cpu) := memRead cpu target
  let (addrHi, cpu) := memRead cpu ((target + 1) % 65536)
  ((Make16 addrHi addrLo + cpu.y % 256) % 65536, cpu)

/-- Dispatch an addressing-mode value to its routine. -/
def runAddrMode : AddrMode → CPU → Nat × CPU
  | .zeroPage => zeroPage
  | .zeroPageX => zeroPageX
  | .zeroPageY => zeroPageY
  | .absolute => absolute
  | .absoluteX => absoluteX
  | .absoluteY => absoluteY
  | .indexedIndirect => indexedIndirect
  | .indirectIndexed => indirectIndexed

/-- dataAddr from go6502.go: for nil mode fetch an immediate (address 0),
otherwise resolve the address and read the data from it. -/
def dataAddr (cpu : CPU) : Option AddrMode → Nat × Nat × CPU
  | none =>
      let (d, cpu) := fetch cpu
      (d, 0, cpu)
  | some am =>
      let (addr, cpu) := runAddrMode am cpu
      let (d, cpu) := memRead cpu addr
      (d, addr, cpu)

/-- setNZ helper: N from bit 7 of the data, Z from the data being zero. -/
def setNZ (cpu : CPU) (data : Nat) : CPU :=
  let pf := pfSetIf cpu.pf flags.N ((data &&& 128) != 0)
  { cpu with pf := pfSetIf pf flags.Z (data == 0) }

/-- binaryArithmetic from go6502.go, including its overflow test
written as the uint8 complement of (acc xor data) and (acc xor result)
compared for equality with the sign bit. -/
def binaryArithmetic (cpu : CPU) (data : Nat) : CPU :=
  let a := cpu.acc % 256
  let d := data % 256
  let carry := cpu.pf &&& flags.C
  let result := a + d + carry
  let finalResult := Lo result
  let pf := pfSetIf cpu.pf flags.N ((finalResult &&& 128) != 0)
  let pf := pfSetIf pf flags.V
      ((((a ^^^ d) &&& (a ^^^ finalResult)) ^^^ 255) == 128)
  let pf := pfSetIf pf flags.Z (finalResult == 0)
  let pf := pfSetIf pf flags.C ((result &&& 256) != 0)
  { cpu with acc := finalResult, pf := pf }

/-- adc: load data, then do binary arithmetic unless the decimal flag is
set (the decimal branch of the source is empty). -/
def adc (cpu : CPU) (addrMode : Option AddrMode) : CPU :=
  let (data, _, cpu) := dataAddr cpu addrMode
  if pfTest cpu.pf flags.D then cpu
  else binaryArithmetic cpu data

/-- sbc: as adc with the operand bitwise inverted (uint8 complement). -/
def sbc (cpu : CPU) (addrMode : Option AddrMode) : CPU :=
  let (data, _, cpu) := dataAddr cpu addrMode
  if pfTest cpu.pf flags.D then cpu
  else binaryArithmetic cpu (data ^^^ 255)

/-- inc: read, then write the value plus one (8-bit wrap on the write). -/
def inc (cpu : CPU) (addrMode : Option AddrMode) : CPU :=
  let (data, addr, cpu) := dataAddr cpu addrMode
  memWrite cpu addr (data + 1)

/-- dec: read, then write the value minus one (8-bit wrap). -/
def dec (cpu : CPU) (addrMode : Option AddrMode) : CPU :=
  let (data, addr, cpu) := dataAddr cpu addrMode
  memWrite cpu addr (data + 255)

/-- inx: increment X with 8-bit wrap. -/
def inx (cpu : CPU) : CPU := { cpu with x := (cpu.x + 1) % 256 }

/-- dex: decrement X with 8-bit wrap. -/
def dex (cpu : CPU) : CPU := { cpu with x := (cpu.x + 255) % 256 }

/-- iny: increment Y with 8-bit wrap. -/
def iny (cpu : CPU) : CPU := { cpu with y := (cpu.y + 1) % 256 }

/-- dey: decrement Y with 8-bit wrap. -/
def dey (cpu : CPU) : CPU := { cpu with y := (cpu.y + 255) % 256 }

/-- ora: or data into the accumulator and set N and Z from it. -/
def ora (cpu : CPU) (addrMode : Option AddrMode) : CPU :=
  let (data, _, cpu) := dataAddr cpu addrMode
  let cpu := { cpu with acc := cpu.acc % 256 ||| data }
  setNZ cpu cpu.acc

/-- and: and data into the accumulator and set N and Z from it. -/
def and (cpu : CPU) (addrMode : Option AddrMode) : CPU :=
  let (data, _, cpu) := dataAddr cpu addrMode
  let cpu := { cpu with acc := cpu.acc &&& data }
  setNZ cpu cpu.acc

/-- eor: xor data into the accumulator and set N and Z from it. -/
def eor (cpu : CPU) (addrMode : Option AddrMode) : CPU :=
  let (data, _, cpu) := dataAddr cpu addrMode
  let cpu := { cpu with acc := cpu.acc % 256 ^^^ data }
  setNZ cpu cpu.acc

/-- asl as written in go6502.go: the source tests addrMode == nil to pick
the dataAddr/memWrite path and the accumulator path; that association is
embedded exactly as in the code. -/
def asl (cpu : CPU) (addrMode : Option AddrMode) : CPU :=
  let (data, addr, cpu) :=
    match addrMode with
    | none => dataAddr cpu none
    | some _ => (cpu.acc % 256, 0, cpu)
  let cpu := { cpu with pf := pfSetIf cpu.pf flags.C ((data &&& 128) != 0) }
  let cpu := setNZ cpu data
  match addrMode with
  | none => memWrite cpu addr (data <<< 1)
  | some _ => { cpu with acc := data <<< 1 % 256 }

/-- lsr as written in go6502.go, with the same nil test as asl. -/
def lsr (cpu : CPU) (addrMode : Option AddrMode) : CPU :=
  let (data, addr, cpu) :=
    match addrMode with
    | none => dataAddr cpu none
    | some _ => (cpu.acc % 256, 0, cpu)
  let cpu := { cpu with pf := pfSetIf cpu.pf flags.C ((data &&& 1) != 0) }
  let cpu := setNZ cpu data
  match addrMode with
  | none => memWrite cpu addr (data >>> 1)
  | some _ => { cpu with acc := data >>> 1 }

/-- rol as written in go6502.go: the old carry enters bit 0; the nil test
matches the source. -/
def rol (cpu : CPU) (addrMode : Option AddrMode) : CPU :=
  let (data, addr, cpu) :=
    match addrMode with
    | none => dataAddr cpu none
    | some _ => (cpu.acc % 256, 0, cpu)
  let carry := cpu.pf &&& flags.C
  let result := data <<< 1 % 256 ||| carry
  let cpu := { cpu with pf := pfSetIf cpu.pf flags.C ((data &&& 128) != 0) }
  let cpu := setNZ cpu data
  match addrMode with
  | none => memWrite cpu addr result
  | some _ => { cpu with acc := result }

/-- ror as written in go6502.go: the old carry enters bit 7; the nil test
matches the source. -/
def ror (cpu : CPU) (addrMode : Option AddrMode) : CPU :=
  let (data, addr, cpu) :=
    match addrMode with
    | none => dataAddr cpu none
    | some _ => (cpu.acc % 256, 0, cpu)
  let carry := (cpu.pf &&& flags.C) <<< 7
  let result := data >>> 1 ||| carry
  let cpu := { cpu with pf := pfSetIf cpu.pf flags.C ((data &&& 1) != 0) }
  let cpu := setNZ cpu data
  match addrMode with
  | none => memWrite cpu addr result
  | some _ => { cpu with acc := result }

/-- sta: resolve the address and write the accumulator. -/
def sta (cpu : CPU) (addrMode : AddrMode) : CPU :=
  let (addr, cpu) := runAddrMode addrMode cpu
  memWrite cpu addr cpu.acc

/-- sty: resolve the address and write Y. -/
def sty (cpu : CPU) (addrMode : AddrMode) : CPU :=
  let (addr, cpu) := runAddrMode addrMode cpu
  memWrite cpu addr cpu.y

/-- stx: resolve the address and write X. -/
def stx (cpu : CPU) (addrMode : AddrMode) : CPU :=
  let (addr, cpu) := runAddrMode addrMode cpu
  memWrite cpu addr cpu.x

/-- lda: load data into the accumulator, setting N and Z from it. -/
def lda (cpu : CPU) (addrMode : Option AddrMode) : CPU :=
  let (data, _, cpu) := dataAddr cpu addrMode
  let cpu := setNZ cpu data
  { cpu with acc := data }

/-- ldy: load data into Y, setting N and Z from it. -/
def ldy (cpu : CPU) (addrMode : Option AddrMode) : CPU :=
  let (data, _, cpu) := dataAddr cpu addrMode
  let cpu := setNZ cpu data
  { cpu with y := data }

/-- ldx: load data into X, setting N and Z from it. -/
def ldx (cpu : CPU) (addrMode : Option AddrMode) : CPU :=
  let (data, _, cpu) := dataAddr cpu addrMode
  let cpu := setNZ cpu data
  { cpu with x := data }

/-- cmp: set N and Z from the 8-bit difference reg minus data, and carry
from the unsigned comparison reg at least data. -/
def cmp (cpu : CPU) (reg : Nat) (addrMode : Option AddrMode) : CPU :=
  let (data, _, cpu) := dataAddr cpu addrMode
  let r := reg % 256
  let cpu := setNZ cpu ((r + 256 - data) % 256)
  { cpu with pf := pfSetIf cpu.pf flags.C (Nat.ble data r) }

/-- bit: N from bit 7 of data, V from bit 6, Z from acc and data. -/
def bit (cpu : CPU) (addrMode : Option AddrMode) : CPU :=
  let (data, _, cpu) := dataAddr cpu addrMode
  let cpu := { cpu with pf := pfSetIf cpu.pf flags.N ((data &&& 128) != 0) }
  let cpu := { cpu with pf := pfSetIf cpu.pf flags.V ((data &&& 64) != 0) }
  { cpu with pf := pfSetIf cpu.pf flags.Z ((cpu.acc &&& data) == 0) }

/-- branch: always fetch the displacement; add it sign-extended to PC
(16-bit wrap) only when the condition holds. -/
def branch (cpu : CPU) (cond : Bool) : CPU :=
  let (data, cpu) := fetch cpu
  let disp := if data < 128 then data else data + 65280
  if cond then { cpu with pc := (cpu.pc + disp) % 65536 } else cpu

/-- jmpAbsolute: PC is set to the absolute operand. -/
def jmpAbsolute (cpu : CPU) : CPU :=
  let (addr, cpu) := absolute cpu
  { cpu with pc := addr }

/-- jmpIndirect as written in go6502.go: the high pointer byte is read at
Make16 (Hi addr) (Lo addr + 1) where the low-byte increment is a uint8
add, wrapping within the page. -/
def jmpIndirect (cpu : CPU) : CPU :=
  let (addr, cpu) := absolute cpu
  let (pcLo, cpu) := memRead cpu addr
  let (pcHi, cpu) := memRead cpu (Make16 (Hi addr) ((Lo addr + 1) % 256))
  { cpu with pc := Make16 pcHi pcLo }

/-- jsr: push PC minus one, high then low, then jump. -/
def jsr (cpu : CPU) : CPU :=
  let (addr, cpu) := absolute cpu
  let storePC := (cpu.pc + 65535) % 65536
  let cpu := stackPush cpu (Hi storePC)
  let cpu := stackPush cpu (Lo storePC)
  { cpu with pc := addr }

/-- rts: pop low then high, PC is the combination plus one. -/
def rts (cpu : CPU) : CPU :=
  let (cpuLo, cpu) := stackPop cpu
  let (cpuHi, cpu) := stackPop cpu
  { cpu with pc := (Make16 cpuHi cpuLo + 1) % 65536 }

/-- rti: pop P, then pop PC low and high. -/
def rti (cpu : CPU) : CPU :=
  let (p, cpu) := stackPop cpu
  let cpu := { cpu with pf := p }
  let (cpuLo, cpu) := stackPop cpu
  let (cpuHi, cpu) := stackPop cpu
  { cpu with pc := Make16 cpuHi cpuLo }

/-- interruptRoutine from go6502.go: clear the entered source, push PC
high, PC low and P (as it currently is), set I, and load PC from the
vector.  The source neither forces B to zero on the pushed byte nor
clears D. -/
def interruptRoutine (cpu : CPU) (intFlag vector : Nat) : CPU :=
  let cpu := { cpu with intMask := intClear cpu.intMask intFlag }
  let cpu := stackPush cpu (Hi cpu.pc)
  let cpu := stackPush cpu (Lo cpu.pc)
  let cpu := stackPush cpu cpu.pf
  let cpu := { cpu with pf := pfSet cpu.pf flags.I }
  let (pcLo, cpu) := memRead cpu vector
  let (pcHi, cpu) := memRead cpu ((vector + 1) % 65536)
  { cpu with pc := Make16 pcHi pcLo }

/-- brk from go6502.go: set B, run the IRQ interrupt routine, clear B. -/
def brk (cpu : CPU) : CPU :=
  let cpu := { cpu with pf := pfSet cpu.pf flags.B }
  let cpu := interruptRoutine cpu IRQ 0xFFFE
  { cpu with pf := pfClear cpu.pf flags.B }

/-- handleInterrupt from go6502.go: NMI first, then IRQ when I is clear;
otherwise nothing happens. -/
def handleInterrupt (cpu : CPU) : CPU :=
  if intTest cpu.intMask NMI then interruptRoutine cpu NMI 0xFFFA
  else if intTest cpu.intMask IRQ && !(pfTest cpu.pf flags.I) then
    interruptRoutine cpu IRQ 0xFFFE
  else cpu

/-- The switch of executeInstruction in go6502.go: one arm per opcode
listed there, every other byte falling through to the identity. -/
def execInstr (instr : Nat) (cpu : CPU) : CPU :=
  match instr with
  | 0x00 => brk cpu
  | 0x01 => ora cpu (some .indexedIndirect)
  | 0x11 => ora cpu (some .indirectIndexed)
  | 0x05 => ora cpu (some .zeroPage)
  | 0x15 => ora cpu (some .zeroPageX)
  | 0x09 => ora cpu none
  | 0x19 => ora cpu (some .absoluteY)
  | 0x0D => ora cpu (some .absolute)
  | 0x1D => ora cpu (some .absoluteX)
  | 0x21 => Go6502.and cpu (some .indexedIndirect)
  | 0x31 => Go6502.and cpu (some .indirectIndexed)
  | 0x25 => Go6502.and cpu (some .zeroPage)
  | 0x35 => Go6502.and cpu (some .zeroPageX)
  | 0x29 => Go6502.and cpu none
  | 0x39 => Go6502.and cpu (some .absoluteY)
  | 0x2D => Go6502.and cpu (some .absolute)
  | 0x3D => Go6502.and cpu (some .absoluteX)
  | 0x41 => eor cpu (some .indexedIndirect)
  | 0x51 => eor cpu (some .indirectIndexed)
  | 0x45 => eor cpu (some .zeroPage)
  | 0x55 => eor cpu (some .zeroPageX)
  | 0x49 => eor cpu none
  | 0x59 => eor cpu (some .absoluteY)
  | 0x4D => eor cpu (some .absolute)
  | 0x5D => eor cpu (some .absoluteX)
  | 0x61 => adc cpu (some .indexedIndirect)
  | 0x71 => adc cpu (some .indirectIndexed)
  | 0x65 => adc cpu (some .zeroPage)
  | 0x75 => adc cpu (some .zeroPageX)
  | 0x69 => adc cpu none
  | 0x79 => adc cpu (some .absoluteY)
  | 0x6D => adc cpu (some .absolute)
  | 0x7D => adc cpu (some .absoluteX)
  | 0x81 => sta cpu .indexedIndirect
  | 0x91 => sta cpu .indirectIndexed
  | 0x85 => sta cpu .zeroPage
  | 0x95 => sta cpu .zeroPageX
  | 0x99 => sta cpu .absoluteY
  | 0x8D => sta cpu .absolute
  | 0x9D => sta cpu .absoluteX
  | 0x84 => sty cpu .zeroPage
  | 0x94 => sty cpu .zeroPageX
  | 0x8C => sty cpu .absolute
  | 0x86 => stx cpu .zeroPage
  | 0x96 => stx cpu .zeroPageY
  | 0x8E => stx cpu .absolute
  | 0xA1 => lda cpu (some .indexedIndirect)
  | 0xB1 => lda cpu (some .indirectIndexed)
  | 0xA5 => lda cpu (some .zeroPage)
  | 0xB5 => lda cpu (some .zeroPageX)
  | 0xA9 => lda cpu none
  | 0xB9 => lda cpu (some .absoluteY)
  | 0xAD => lda cpu (some .absolute)
  | 0xBD => lda cpu (some .absoluteX)
  | 0xA0 => ldy cpu none
  | 0xA4 => ldy cpu (some .zeroPage)
  | 0xAC => ldy cpu (some .absolute)
  | 0xB4 => ldy cpu (some .zeroPageX)
  | 0xBC => ldy cpu (some .absoluteX)
  | 0xA2 => ldx cpu none
  | 0xA6 => ldx cpu (some .zeroPage)
  | 0xAE => ldx cpu (some .absolute)
  | 0xB6 => ldx cpu (some .zeroPageY)
  | 0xBE => ldx cpu (some .absoluteY)
  | 0xC0 => cmp cpu cpu.y none
  | 0xC4 => cmp cpu cpu.y (some .zeroPage)
  | 0xCC => cmp cpu cpu.y (some .absolute)
  | 0xE0 => cmp cpu cpu.x none
  | 0xE4 => cmp cpu cpu.x (some .zeroPage)
  | 0xEC => cmp cpu cpu.x (some .absolute)
  | 0xC1 => cmp cpu cpu.acc (some .indexedIndirect)
  | 0xD1 => cmp cpu cpu.acc (some .indirectIndexed)
  | 0xC5 => cmp cpu cpu.acc (some .zeroPage)
  | 0xD5 => cmp cpu cpu.acc (some .zeroPageX)
  | 0xC9 => cmp cpu cpu.acc none
  | 0xD9 => cmp cpu cpu.acc (some .absoluteY)
  | 0xCD => cmp cpu cpu.acc (some .absolute)
  | 0xDD => cmp cpu cpu.acc (some .absoluteX)
  | 0xE1 => sbc cpu (some .indexedIndirect)
  | 0xF1 => sbc cpu (some .indirectIndexed)
  | 0xE5 => sbc cpu (some .zeroPage)
  | 0xF5 => sbc cpu (some .zeroPageX)
  | 0xE9 => sbc cpu none
  | 0xF9 => sbc cpu (some .absoluteY)
  | 0xED => sbc cpu (some .absolute)
  | 0xFD => sbc cpu (some .absoluteX)
  | 0x0A => asl cpu none
  | 0x06 => asl cpu (some .zeroPage)
  | 0x16 => asl cpu (some .zeroPageX)
  | 0x0E => asl cpu (some .absolute)
  | 0x1E => asl cpu (some .absoluteX)
  | 0x2A => rol cpu none
  | 0x26 => rol cpu (some .zeroPage)
  | 0x36 => rol cpu (some .zeroPageX)
  | 0x2E => rol cpu (some .absolute)
  | 0x3E => rol cpu (some .absoluteX)
  | 0x4A => lsr cpu none
  | 0x46 => lsr cpu (some .zeroPage)
  | 0x56 => lsr cpu (some .zeroPageX)
  | 0x4E => lsr cpu (some .absolute)
  | 0x5E => lsr cpu (some .absoluteX)
  | 0x6A => ror cpu none
  | 0x66 => ror cpu (some .zeroPage)
  | 0x76 => ror cpu (some .zeroPageX)
  | 0x6E => ror cpu (some .absolute)
  | 0x7E => ror cpu (some .absoluteX)
  | 0xC6 => dec cpu (some .zeroPage)
  | 0xD6 => dec cpu (some .zeroPageX)
  | 0xCE => dec cpu (some .absolute)
  | 0xDE => dec cpu (some .absoluteX)
  | 0xE6 => inc cpu (some .zeroPage)
  | 0xF6 => inc cpu (some .zeroPageX)
  | 0xEE => inc cpu (some .absolute)
  | 0xFE => inc cpu (some .absoluteX)
  | 0xCA => dex cpu
  | 0x88 => dey cpu
  | 0xE8 => inx cpu
  | 0xC8 => iny cpu
  | 0x98 => let cpu := setNZ cpu cpu.y; { cpu with acc := cpu.y }
  | 0xA8 => let cpu := setNZ cpu cpu.acc; { cpu with y := cpu.acc }
  | 0x8A => let cpu := setNZ cpu cpu.x; { cpu with acc := cpu.x }
  | 0x9A => let cpu := setNZ cpu cpu.x; { cpu with sp := cpu.x }
  | 0xAA => let cpu := setNZ cpu cpu.acc; { cpu with x := cpu.acc }
  | 0xBA => let cpu := setNZ cpu cpu.sp; { cpu with x := cpu.sp }
  | 0x18 => { cpu with pf := pfClear cpu.pf flags.C }
  | 0x38 => { cpu with pf := pfSet cpu.pf flags.C }
  | 0x58 => { cpu with pf := pfClear cpu.pf flags.I }
  | 0x78 => { cpu with pf := pfSet cpu.pf flags.I }
  | 0xB8 => { cpu with pf := pfClear cpu.pf flags.V }
  | 0xD8 => { cpu with pf := pfClear cpu.pf flags.D }
  | 0xF8 => { cpu with pf := pfSet cpu.pf flags.D }
  | 0x24 => bit cpu (some .zeroPage)
  | 0x2C => bit cpu (some .absolute)
  | 0x08 => stackPush cpu cpu.pf
  | 0x28 => let (d, cpu) := stackPop cpu; { cpu with pf := d }
  | 0x48 => stackPush cpu cpu.acc
  | 0x68 => let (d, cpu) := stackPop cpu; { cpu with acc := d }
  | 0x10 => branch cpu (!(pfTest cpu.pf flags.N))
  | 0x30 => branch cpu (pfTest cpu.pf flags.N)
  | 0x50 => branch cpu (!(pfTest cpu.pf flags.V))
  | 0x70 => branch cpu (pfTest cpu.pf flags.V)
  | 0x90 => branch cpu (!(pfTest cpu.pf flags.C))
  | 0xB0 => branch cpu (pfTest cpu.pf flags.C)
  | 0xD0 => branch cpu (!(pfTest cpu.pf flags.Z))
  | 0xF0 => branch cpu (pfTest cpu.pf flags.Z)
  | 0x20 => jsr cpu
  | 0x4C => jmpAbsolute cpu
  | 0x6C => jmpIndirect cpu
  | 0x40 => rti cpu
  | 0x60 => rts cpu
  | _ => cpu

/-- executeInstruction: fetch the opcode and dispatch on it. -/
def executeInstruction (cpu : CPU) : CPU :=
  let (instr, cpu) := fetch cpu
  execInstr instr cpu

/-- Step from go6502.go: handle interrupts or execute one instruction,
snapshot and zero the cycle counter, clock the bus with the snapshot and
merge the returned interrupt bits into the latch, return the snapshot. -/
def Step (clock : Nat → Nat) (cpu : CPU) : Nat × CPU :=
  let cpu :=
    if cpu.intMask != 0 then handleInterrupt cpu
    else if !cpu.halt then executeInstruction cpu
    else cpu
  let cycles := cpu.cycles
  let cpu := { cpu with cycles := 0 }
  let cpu := { cpu with intMask := intSet cpu.intMask (clock cycles % 256) }
  (cycles, cpu)

/-- New from go6502.go: the literal initial state. -/
def New (memoryBus : Nat → Nat) : CPU :=
  { acc := 0, x := 0, y := 0, sp := 0xFF, pc := 0xFFFE, pf := 0,
    mem := memoryBus, halt := false, intMask := 0, cycles := 0, trace := [] }

/-- Step with a bus whose Clock reports no interrupts, keeping only the
resulting state; used to run concrete programs. -/
def step0 (cpu : CPU) : CPU := (Step (fun _ => 0) cpu).2

/-- The opcode bytes that appear as case labels of the switch in
executeInstruction of go6502.go. -/
def implementedOpcodes : List Nat :=
  [0x00, 0x01, 0x05, 0x06, 0x08, 0x09, 0x0A, 0x0D, 0x0E, 0x10, 0x11, 0x15,
   0x16, 0x18, 0x19, 0x1D, 0x1E, 0x20, 0x21, 0x24, 0x25, 0x26, 0x28, 0x29,
   0x2A, 0x2C, 0x2D, 0x2E, 0x30, 0x31, 0x35, 0x36, 0x38, 0x39, 0x3D, 0x3E,
   0x40, 0x41, 0x45, 0x46, 0x48, 0x49, 0x4A, 0x4C, 0x4D, 0x4E, 0x50, 0x51,
   0x55, 0x56, 0x58, 0x59, 0x5D, 0x5E, 0x60, 0x61, 0x65, 0x66, 0x68, 0x69,
   0x6A, 0x6C, 0x6D, 0x6E, 0x70, 0x71, 0x75, 0x76, 0x78, 0x79, 0x7D, 0x7E,
   0x81, 0x84, 0x85, 0x86, 0x88, 0x8A, 0x8C, 0x8D, 0x8E, 0x90, 0x91, 0x94,
   0x95, 0x96, 0x98, 0x99, 0x9A, 0x9D, 0xA0, 0xA1, 0xA2, 0xA4, 0xA5, 0xA6,
   0xA8, 0xA9, 0xAA, 0xAC, 0xAD, 0xAE, 0xB0, 0xB1, 0xB4, 0xB5, 0xB6, 0xB8,
   0xB9, 0xBA, 0xBC, 0xBD, 0xBE, 0xC0, 0xC1, 0xC4, 0xC5, 0xC6, 0xC8, 0xC9,
   0xCA, 0xCC, 0xCD, 0xCE, 0xD0, 0xD1, 0xD5, 0xD6, 0xD8, 0xD9, 0xDD, 0xDE,
   0xE0, 0xE1, 0xE4, 0xE5, 0xE6, 0xE8, 0xE9, 0xEC, 0xED, 0xEE, 0xF0, 0xF1,
   0xF5, 0xF6, 0xF8, 0xF9, 0xFD, 0xFE]

/-- A non-halted CPU with only IRQ latched and the I flag set; the whole
address space holds 0xE8 (INX). -/
def sMaskedIRQ : CPU :=
  { acc := 0, x := 5, y := 0, sp := 0xFF, pc := 0x8000, pf := flags.I,
    mem := fun _ => 0xE8, halt := false, intMask := IRQ, cycles := 0,
    trace := [] }

/-- Memory holding the NMI vector 0x9000 at 0xFFFA/0xFFFB. -/
def memC3 : Nat → Nat := fun a =>
  if a = 0xFFFA then 0x00 else if a = 0xFFFB then 0x90 else 0

/-- A CPU with NMI latched and both B and D set in P (B + D = 24). -/
def sC3 : CPU :=
  { acc := 0, x := 0, y := 0, sp := 0xFF, pc := 0x1234, pf := 24,
    mem := memC3, halt := false, intMask := NMI, cycles := 0, trace := [] }

/-- Memory holding the reset vector 0x8000 at 0xFFFC/0xFFFD. -/
def memC4 : Nat → Nat := fun a =>
  if a = 0xFFFC then 0x00 else if a = 0xFFFD then 0x80 else 0

/-- Memory with the program CLC; LDA 0x50 immediate; ADC 0x50 immediate
at 0x8000. -/
def memC5 : Nat → Nat := fun a =>
  if a = 0x8000 then 0x18 else if a = 0x8001 then 0xA9 else
  if a = 0x8002 then 0x50 else if a = 0x8003 then 0x69 else
  if a = 0x8004 then 0x50 else 0

/-- A fresh CPU about to run the ADC overflow program. -/
def sC5 : CPU :=
  { acc := 0, x := 0, y := 0, sp := 0xFF, pc := 0x8000, pf := 0,
    mem := memC5, halt := false, intMask := 0, cycles := 0, trace := [] }

/-- Memory with JMP indirect through the pointer 0x10FF: low target byte
0x34 at 0x10FF, 0x12 at 0x1100 and 0xAB at 0x1000. -/
def memC6 : Nat → Nat := fun a =>
  if a = 0x8000 then 0x6C else if a = 0x8001 then 0xFF else
  if a = 0x8002 then 0x10 else if a = 0x10FF then 0x34 else
  if a = 0x1100 then 0x12 else if a = 0x1000 then 0xAB else 0

/-- A CPU about to execute the indirect jump. -/
def sC6 : CPU :=
  { acc := 0, x := 0, y := 0, sp := 0xFF, pc := 0x8000, pf := 0,
    mem := memC6, halt := false, intMask := 0, cycles := 0, trace := [] }

/-- Memory with ASL accumulator (0x0A) at 0x8000 followed by 0x81. -/
def memC7 : Nat → Nat := fun a =>
  if a = 0x8000 then 0x0A else if a = 0x8001 then 0x81 else 0

/-- A CPU with A = 0x40 about to execute ASL in accumulator mode. -/
def sC7 : CPU :=
  { acc := 0x40, x := 0, y := 0, sp := 0xFF, pc := 0x8000, pf := 0,
    mem := memC7, halt := false, intMask := 0, cycles := 0, trace := [] }

/-- Memory with BRK at 0x8000 and the IRQ vector 0x9000 at 0xFFFE/F. -/
def memC8 : Nat → Nat := fun a =>
  if a = 0x8000 then 0x00 else if a = 0xFFFE then 0x00 else
  if a = 0xFFFF then 0x90 else 0

/-- A CPU with the D flag set (P = 8) about to execute BRK at 0x8000. -/
def sC8 : CPU :=
  { acc := 0, x := 0, y := 0, sp := 0xFF, pc := 0x8000, pf := 8,
    mem := memC8, halt := false, intMask := 0, cycles := 0, trace := [] }

/-- A CPU whose whole address space holds 0x02, an opcode without a case
in the dispatch switch. -/
def sW9 : CPU :=
  { acc := 1, x := 2, y := 3, sp := 0xF0, pc := 0x8000, pf := 5,
    mem := fun _ => 0x02, halt := false, intMask := 0, cycles := 7,
    trace := [] }

/-- Memory with BIT zero page (0x24 0x10) at 0x8000 and 0xC0 at 0x0010. -/
def memC10 : Nat → Nat := fun a =>
  if a = 0x8000 then 0x24 else if a = 0x8001 then 0x10 else
  if a = 0x0010 then 0xC0 else 0

/-- A CPU with C, I, D and B flags set (P = 0x17) about to execute BIT. -/
def sW10 : CPU :=
  { acc := 0x40, x := 1, y := 2, sp := 0xFD, pc := 0x8000, pf := 0x17,
    mem := memC10, halt := false, intMask := 0, cycles := 0, trace := [] }

set_option maxRecDepth 8192 in
set_option maxHeartbeats 2000000 in
/-- Opcode bytes outside the dispatch list leave the state returned by
the opcode fetch untouched: the switch has no default case. -/
theorem execInstr_unimplemented (b : Nat) (hb : b < 256)
    (h : b ∉ implementedOpcodes) (c : CPU) : execInstr b c = c := by
  interval_cases b <;> first | exact absurd (by decide) h | rfl

set_option maxRecDepth 4096 in
/-- Updating the N, V and Z flags through pfSetIf leaves the C, I, D and
B bits (mask 29) of an 8-bit flag byte unchanged. -/
theorem pfSetIf_NVZ_mask : ∀ pf < 256, ∀ (b1 b2 b3 : Bool),
    pfSetIf (pfSetIf (pfSetIf pf 128 b1) 64 b2) 2 b3 &&& 29 = pf &&& 29 := by
  decide

/-- A Read event does not change the number of Write events of a trace. -/
theorem countP_writes_cons_read (a : Nat) (t : List BusEvent) :
    List.countP (fun e => e.isWrite) (BusEvent.read a :: t) =
      List.countP (fun e => e.isWrite) t := by
  simp [List.countP_cons, BusEvent.isWrite]

/-- Executing BIT in zero-page mode only touches PC, the cycle counter,
the trace and the N, V, Z flag bits. -/
theorem bit_zeroPage_frame (s : CPU) (hpf : s.pf < 256)
    (h : s.mem (s.pc % 65536) % 256 = 0x24) :
    (executeInstruction s).acc = s.acc ∧ (executeInstruction s).x = s.x ∧
    (executeInstruction s).y = s.y ∧ (executeInstruction s).sp = s.sp ∧
    (executeInstruction s).mem = s.mem ∧
    (executeInstruction s).pf &&& 29 = s.pf &&& 29 ∧
    (executeInstruction s).trace.countP (fun e => e.isWrite) =
      s.trace.countP (fun e => e.isWrite) := by
  have h2 : executeInstruction s =
      execInstr (s.mem (s.pc % 65536) % 256)
        { s with pc := (s.pc + 1) % 65536, cycles := s.cycles + 1,
                 trace := BusEvent.read (s.pc % 65536) :: s.trace } := rfl
  rw [h2, h]
  refine ⟨rfl, rfl, rfl, rfl, rfl, ?_, ?_⟩
  · exact pfSetIf_NVZ_mask s.pf hpf _ _ _
  · show List.countP (fun e => e.isWrite)
      (BusEvent.read _ :: BusEvent.read _ :: BusEvent.read _ :: s.trace) =
      List.countP (fun e => e.isWrite) s.trace
    rw [countP_writes_cons_read, countP_writes_cons_read,
        countP_writes_cons_read]

/-- Executing BIT in absolute mode only touches PC, the cycle counter,
the trace and the N, V, Z flag bits. -/
theorem bit_absolute_frame (s : CPU) (hpf : s.pf < 256)
    (h : s.mem (s.pc % 65536) % 256 = 0x2C) :
    (executeInstruction s).acc = s.acc ∧ (executeInstruction s).x = s.x ∧
    (executeInstruction s).y = s.y ∧ (executeInstruction s).sp = s.sp ∧
    (executeInstruction s).mem = s.mem ∧
    (executeInstruction s).pf &&& 29 = s.pf &&& 29 ∧
    (executeInstruction s).trace.countP (fun e => e.isWrite) =
      s.trace.countP (fun e => e.isWrite) := by
  have h2 : executeInstruction s =
      execInstr (s.mem (s.pc % 65536) % 256)
        { s with pc := (s.pc + 1) % 65536, cycles := s.cycles + 1,
                 trace := BusEvent.read (s.pc % 65536) :: s.trace } := rfl
  rw [h2, h]
  refine ⟨rfl, rfl, rfl, rfl, rfl, ?_, ?_⟩
  · exact pfSetIf_NVZ_mask s.pf hpf _ _ _
  · show List.countP (fun e => e.isWrite)
      (BusEvent.read _ :: BusEvent.read _ :: BusEvent.read _ ::
        BusEvent.read _ :: s.trace) =
      List.countP (fun e => e.isWrite) s.trace
    rw [countP_writes_cons_read, countP_writes_cons_read,
        countP_writes_cons_read, countP_writes_cons_read]

/-- C1: on a non-halted CPU whose only latched source is an IRQ masked by
P.I = 1, Step performs no bus access at all and returns 0, refuting the
claim that the return value of Step is always strictly positive; the
cycles field is 0 afterwards. -/
theorem c1_step_returns_zero_on_masked_irq :
    sMaskedIRQ.halt = false ∧
    (Step (fun _ => 0) sMaskedIRQ).1 = 0 ∧
    (Step (fun _ => 0) sMaskedIRQ).2.trace = [] ∧
    (Step (fun _ => 0) sMaskedIRQ).2.cycles = 0 := by
  decide

/-- C2: with only IRQ latched and P.I = 1 the next Step does not execute
the next instruction: the INX at PC is skipped (PC and X unchanged, zero
cycles), while IRQ does stay pending.  The claim says the instruction is
executed. -/
theorem c2_masked_irq_skips_instruction :
    (Step (fun _ => 0) sMaskedIRQ).2.pc = 0x8000 ∧
    (Step (fun _ => 0) sMaskedIRQ).2.x = 5 ∧
    (Step (fun _ => 0) sMaskedIRQ).2.intMask = IRQ ∧
    (Step (fun _ => 0) sMaskedIRQ).1 = 0 := by
  decide

/-- C3: NMI entry from a state with B and D set in P (P = 24): the source
is cleared, PC is pushed high then low and PC comes from 0xFFFA/B, but
the pushed P byte still has B = 1 and the D flag remains set afterwards,
refuting the B = 0 push and the D clear of the claim. -/
theorem c3_interrupt_entry_keeps_b_and_d :
    (step0 sC3).intMask = 0 ∧
    (step0 sC3).mem 0x01FF = 0x12 ∧
    (step0 sC3).mem 0x01FE = 0x34 ∧
    (step0 sC3).mem 0x01FD = 24 ∧
    pfTest ((step0 sC3).mem 0x01FD) flags.B = true ∧
    pfTest (step0 sC3).pf flags.D = true ∧
    pfTest (step0 sC3).pf flags.I = true ∧
    (step0 sC3).pc = 0x9000 := by
  decide

/-- C4 counterexample: New ignores the reset vector 0xFFFC/0xFFFD (which
here holds 0x8000) and leaves the I flag clear, refuting the claimed
initial PC and P. -/
theorem c4_new_counterexample :
    (New memC4).pc = 0xFFFE ∧
    (New memC4).pc ≠ Make16 (memC4 0xFFFD) (memC4 0xFFFC) ∧
    pfTest (New memC4).pf flags.I = false := by
  decide

/-- C4 amended: a freshly constructed CPU has A = X = Y = 0, SP = 0xFF,
P = 0 (every flag clear, including I), PC equal to the constant 0xFFFE
regardless of memory contents, no pending interrupt and zero cycles. -/
theorem c4_new_initial_state (memoryBus : Nat → Nat) :
    (New memoryBus).acc = 0 ∧ (New memoryBus).x = 0 ∧
    (New memoryBus).y = 0 ∧ (New memoryBus).sp = 0xFF ∧
    (New memoryBus).pc = 0xFFFE ∧ (New memoryBus).pf = 0 ∧
    (New memoryBus).halt = false ∧ (New memoryBus).intMask = 0 ∧
    (New memoryBus).cycles = 0 :=
  ⟨rfl, rfl, rfl, rfl, rfl, rfl, rfl, rfl, rfl⟩

/-- C5: running CLC; LDA 0x50; ADC 0x50 gives A = 0xA0, N = 1, Z = 0 and
C = 0 as the claim says, but V comes out 0 where the stated overflow rule
and the spec example require V = 1: the overflow test of
binaryArithmetic compares a complemented byte with 0x80 for equality. -/
theorem c5_adc_overflow_flag_wrong :
    (step0 (step0 (step0 sC5))).acc = 0xA0 ∧
    pfTest (step0 (step0 (step0 sC5))).pf flags.N = true ∧
    pfTest (step0 (step0 (step0 sC5))).pf flags.Z = false ∧
    pfTest (step0 (step0 (step0 sC5))).pf flags.C = false ∧
    pfTest (step0 (step0 (step0 sC5))).pf flags.V = false := by
  decide

/-- C6: JMP indirect through the pointer 0x10FF reads the high target
byte at 0x1000 (page wrap of the low pointer byte), landing at 0xAB34
instead of the claimed 0x1234. -/
theorem c6_jmp_indirect_page_wraps :
    (step0 sC6).pc = 0xAB34 ∧ (step0 sC6).pc ≠ 0x1234 := by
  decide

/-- C7: ASL in accumulator mode (0x0A) with A = 0x40 leaves A unchanged,
fetches an operand byte (PC advances by 2), writes to address 0 on the
bus and sets C from the fetched byte, refuting the claim that the
accumulator variant shifts A with no memory access beyond the opcode
fetch. -/
theorem c7_asl_accumulator_broken :
    (step0 sC7).acc = 0x40 ∧ (step0 sC7).acc ≠ 0x80 ∧
    (step0 sC7).pc = 0x8002 ∧
    (step0 sC7).mem 0 = 0x02 ∧
    (step0 sC7).trace =
      [BusEvent.write 0 2, BusEvent.read 0x8001, BusEvent.read 0x8000] ∧
    pfTest (step0 sC7).pf flags.C = true := by
  decide

/-- C8: BRK at 0x8000 pushes 0x8001 (the padding byte address, low byte
0x01) rather than the claimed 0x8002, pushes P with B = 1, sets I, loads
PC from 0xFFFE/F, and leaves the D flag set, refuting the claimed push
of a+2 and the D clear. -/
theorem c8_brk_pushes_pc_plus_one_keeps_d :
    (step0 sC8).mem 0x01FF = 0x80 ∧
    (step0 sC8).mem 0x01FE = 0x01 ∧
    (step0 sC8).mem 0x01FE ≠ 0x02 ∧
    (step0 sC8).mem 0x01FD = 24 ∧
    pfTest ((step0 sC8).mem 0x01FD) flags.B = true ∧
    pfTest (step0 sC8).pf flags.I = true ∧
    pfTest (step0 sC8).pf flags.D = true ∧
    (step0 sC8).pc = 0x9000 := by
  decide

/-- C9: any opcode byte without a case in the dispatch switch behaves as
a NOP: PC advances by exactly one, the single opcode fetch is the only
bus access and the only counted tick, and registers, flags, halt,
interrupt latch and memory are unchanged. -/
theorem c9_unimplemented_opcode_is_nop (s : CPU)
    (h : s.mem (s.pc % 65536) % 256 ∉ implementedOpcodes) :
    executeInstruction s =
      { s with pc := (s.pc + 1) % 65536, cycles := s.cycles + 1,
               trace := BusEvent.read (s.pc % 65536) :: s.trace } :=
  execInstr_unimplemented _ (Nat.mod_lt _ (by norm_num)) h _

/-- C9 witness: the concrete opcode 0x02 is not dispatched and executing
it from sW9 only fetches and advances PC. -/
theorem c9_unimplemented_opcode_is_nop_witness :
    sW9.mem (sW9.pc % 65536) % 256 ∉ implementedOpcodes ∧
    executeInstruction sW9 =
      { sW9 with pc := (sW9.pc + 1) % 65536, cycles := sW9.cycles + 1,
                 trace := BusEvent.read (sW9.pc % 65536) :: sW9.trace } :=
  ⟨by decide, c9_unimplemented_opcode_is_nop sW9 (by decide)⟩

/-- C10: executing BIT in either of its addressing modes (opcodes 0x24
and 0x2C) changes only PC, the cycle counter and the N, V, Z flags: the
accumulator, X, Y, SP, the C, I, D and B flag bits (mask 29) and the
memory are unchanged, and no bus Write is performed. -/
theorem c10_bit_frame_effect (s : CPU) (hpf : s.pf < 256)
    (h : s.mem (s.pc % 65536) % 256 = 0x24 ∨
         s.mem (s.pc % 65536) % 256 = 0x2C) :
    (executeInstruction s).acc = s.acc ∧ (executeInstruction s).x = s.x ∧
    (executeInstruction s).y = s.y ∧ (executeInstruction s).sp = s.sp ∧
    (executeInstruction s).mem = s.mem ∧
    (executeInstruction s).pf &&& 29 = s.pf &&& 29 ∧
    (executeInstruction s).trace.countP (fun e => e.isWrite) =
      s.trace.countP (fun e => e.isWrite) := by
  rcases h with h | h
  · exact bit_zeroPage_frame s hpf h
  · exact bit_absolute_frame s hpf h

/-- C10 witness: a concrete BIT zero page execution from sW10. -/
theorem c10_bit_frame_effect_witness :
    sW10.pf < 256 ∧
    (sW10.mem (sW10.pc % 65536) % 256 = 0x24 ∨
     sW10.mem (sW10.pc % 65536) % 256 = 0x2C) ∧
    ((executeInstruction sW10).acc = sW10.acc ∧
     (executeInstruction sW10).x = sW10.x ∧
     (executeInstruction sW10).y = sW10.y ∧
     (executeInstruction sW10).sp = sW10.sp ∧
     (executeInstruction sW10).mem = sW10.mem ∧
     (executeInstruction sW10).pf &&& 29 = sW10.pf &&& 29 ∧
     (executeInstruction sW10).trace.countP (fun e => e.isWrite) =
       sW10.trace.countP (fun e => e.isWrite)) :=
  ⟨by decide, Or.inl (by decide),
   c10_bit_frame_effect sW10 (by decide) (Or.inl (by decide))⟩

end Go6502
